import Mathlib

/-!
Shallow embedding of the odds-movement / settlement pipeline of the
`mygoal` repository, and verification of its specification claims.

Numeric model: Python floats are modelled as rationals (`ℚ`); all the
values the pipeline manipulates are small decimals, so no claim here
depends on binary rounding.  Python strings are Lean `String`s; `None`
is `Option.none`.  Machine integers do not occur.
-/

namespace MyGoal

/-- Value of a list of ASCII digit characters read in base 10
(model of the digit-string part of Python `float`). -/
def digitsToNat (cs : List Char) : ℕ :=
  cs.foldl (fun n c => 10 * n + (c.toNat - 48)) 0

/-- Model of Python `float(s)` on strings, restricted to plain decimal
literals: optional sign, integer digits, optional dot, fraction digits,
at least one digit in total, nothing else.  Returns `none` where the
Python call raises `ValueError`.  (Exponents and `inf`/`nan` spellings
never occur in this data and are not modelled.) -/
def parseUnsigned (cs : List Char) : Option ℚ :=
  let intPart := cs.takeWhile (·.isDigit)
  let rest := cs.dropWhile (·.isDigit)
  match rest with
  | [] => if intPart.isEmpty then none else some (digitsToNat intPart)
  | '.' :: frac =>
      if frac.all (·.isDigit) ∧ ¬(intPart.isEmpty ∧ frac.isEmpty) then
        some ((digitsToNat intPart : ℚ) + (digitsToNat frac : ℚ) / 10 ^ frac.length)
      else none
  | _ => none

/-- Model of Python `float` applied to a string (sign handling). -/
def pyFloat (s : String) : Option ℚ :=
  match s.data with
  | '-' :: rest => (parseUnsigned rest).map (fun q => -q)
  | '+' :: rest => parseUnsigned rest
  | _ => parseUnsigned s.data

/-- `db_storage.py`, nested `safe_float` (lines 279-283):
`try: return float(x) except: return None`.  `float(None)` raises
`TypeError`, which the bare `except` also turns into `None`. -/
def safe_float (x : Option String) : Option ℚ :=
  match x with
  | none => none
  | some s => pyFloat s

/-- `predict_by_patterns.py`, `safe_float` (lines 41-46):
`float(value) if value else None`, guarded by try/except.
Falsy values (`None`, `""`) map to `None` before conversion. -/
def pbp_safe_float (x : Option String) : Option ℚ :=
  match x with
  | none => none
  | some s => if s = "" then none else pyFloat s

/-- First match of the regex `\d+\.?\d*` in a character list, converted
to its numeric value (model of `float(re.findall(r'\d+\.?\d*', s)[0])`);
`none` when the string holds no digit. -/
def firstNumVal : List Char → Option ℚ
  | [] => none
  | c :: rest =>
      if c.isDigit then
        let ds := (c :: rest).takeWhile (·.isDigit)
        let tail := (c :: rest).dropWhile (·.isDigit)
        some (match tail with
          | '.' :: t2 =>
              (digitsToNat ds : ℚ) +
                (digitsToNat (t2.takeWhile (·.isDigit)) : ℚ) /
                  10 ^ (t2.takeWhile (·.isDigit)).length
          | _ => (digitsToNat ds : ℚ))
      else firstNumVal rest

/-- Association-list lookup used to model Python dict lookup on the
fixed handicap vocabularies. -/
def lookupMap : List (String × ℚ) → String → Option ℚ
  | [], _ => none
  | (k, v) :: rest, s => if s = k then some v else lookupMap rest s

/-- The fixed handicap vocabulary `handicap_map` of
`db_storage.py._calc_asian_movement_label.parse_handicap` (lines 259-264)
and, identically, `predict_by_patterns.py.parse_handicap` (lines 21-27). -/
def handicap_map : List (String × ℚ) :=
  [("平手", 0), ("平/半", 1/4), ("平手/半球", 1/4),
   ("半球", 1/2), ("半/一", 3/4), ("半球/一球", 3/4),
   ("一球", 1), ("一/球半", 5/4), ("一球/球半", 5/4),
   ("球半", 3/2), ("球半/两", 7/4), ("球半/两球", 7/4),
   ("两球", 2), ("两/两球半", 9/4), ("两球半", 5/2)]

/-- Characters of a token with every receiving marker `受` removed:
model of `str(h).replace('受', '')`. -/
def stripShou (cs : List Char) : List Char :=
  cs.filter (fun c => c ≠ '受')

/-- `db_storage.py`, nested `parse_handicap` (lines 256-277): vocabulary
lookup on the cleaned token, else first numeric substring of the
ORIGINAL token (`re.findall` is applied to `str(h)`, not to `clean`);
the value is negated when the receiving marker `受` occurs. -/
def db_parse_handicap (h : Option String) : Option ℚ :=
  match h with
  | none => none
  | some s =>
      if s = "" then none
      else
        let isReceiver := '受' ∈ s.data
        let clean : String := ⟨stripShou s.data⟩
        match lookupMap handicap_map clean with
        | some v => some (if isReceiver then -v else v)
        | none =>
            match firstNumVal s.data with
            | some v => some (if isReceiver then -v else v)
            | none => none

/-- `predict_by_patterns.py`, `parse_handicap` (lines 13-38): same
vocabulary, but the numeric fallback runs on the CLEANED token. -/
def parse_handicap (h : Option String) : Option ℚ :=
  match h with
  | none => none
  | some s =>
      if s = "" then none
      else
        let isReceiver := '受' ∈ s.data
        let clean : String := ⟨stripShou s.data⟩
        match lookupMap handicap_map clean with
        | some v => some (if isReceiver then -v else v)
        | none =>
            match firstNumVal (stripShou s.data) with
            | some v => some (if isReceiver then -v else v)
            | none => none

/-- `prediction_review.py`, `_parse_handicap` (lines 295-328): a smaller
elif-chain vocabulary (up to 两球 = 2.0); the fallback is
`float(clean_str)` on the whole cleaned token. -/
def pr_map : List (String × ℚ) :=
  [("平手", 0), ("平/半", 1/4), ("平手/半球", 1/4),
   ("半球", 1/2), ("半/一", 3/4), ("半球/一球", 3/4),
   ("一球", 1), ("一/球半", 5/4), ("一球/球半", 5/4),
   ("球半", 3/2), ("球半/两", 7/4), ("球半/两球", 7/4),
   ("两球", 2)]

def pr_parse_handicap (h : Option String) : Option ℚ :=
  match h with
  | none => none
  | some s =>
      if s = "" then none
      else
        let isReceiver := '受' ∈ s.data
        let clean : String := ⟨stripShou s.data⟩
        match lookupMap pr_map clean with
        | some v => some (if isReceiver then -v else v)
        | none =>
            match pyFloat clean with
            | some v => some (if isReceiver then -v else v)
            | none => none

end MyGoal

namespace MyGoal

/-! ## ResultEvaluator: settlement of handicap and totals predictions
(`prediction_review.py`) -/

/-- The score-classification step of
`prediction_review.py._check_asian_handicap` (lines 263-270): the
adjusted home score is `home_score + handicap_value`; greater than the
away score settles for the home side, smaller for the away side, equal
is a push (the source comment 走盘 marks the early `return False`).
`some "home"` is the UPPER_WINS outcome of the spec (home side gives
the handicap), `some "away"` is LOWER_WINS, `none` is PUSH. -/
def asian_actual_result (home_score away_score handicap_value : ℚ) : Option String :=
  let adjusted_home_score := home_score + handicap_value
  if adjusted_home_score > away_score then some "home"
  else if adjusted_home_score < away_score then some "away"
  else none

/-- `prediction_review.py._check_asian_handicap` (lines 252-272).
Returns a Boolean correctness flag: `false` when prediction or
handicap is falsy (`None` / empty), when the handicap does not parse,
or on a push; otherwise compares the prediction with the settled side. -/
def check_asian_handicap (home_score away_score : ℚ)
    (prediction handicap : Option String) : Bool :=
  match prediction, handicap with
  | some p, some h =>
      if p = "" ∨ h = "" then false
      else
        match pr_parse_handicap (some h) with
        | none => false
        | some v =>
            match asian_actual_result home_score away_score v with
            | none => false
            | some actual => p = actual
  | _, _ => false

/-- `prediction_review.py._check_over_under` (lines 274-293).
Boolean correctness flag for the totals prediction: `false` on falsy
prediction/total, unparseable total, or a push (total exactly on the
line); otherwise compares the prediction with over/under. -/
def check_over_under (home_score away_score : ℚ)
    (prediction total : Option String) : Bool :=
  match prediction, total with
  | some p, some t =>
      if p = "" ∨ t = "" then false
      else
        match pyFloat t with
        | none => false
        | some total_line =>
            let actual_total := home_score + away_score
            if actual_total > total_line then p = "over"
            else if actual_total < total_line then p = "under"
            else false
  | _, _ => false

/-! ## MovementClassifier (`db_storage.py._calc_asian_movement_label`) -/

/-- `db_storage.py._calc_asian_movement_label` (lines 285-321): parses
the four snapshot fields, returns `none` when any parse fails, and
otherwise classifies the (handicap, price) deltas against the 0.01 and
0.02 thresholds into one of the nine movement labels. -/
def calc_asian_movement_label
    (asian_initial_handicap asian_current_handicap
     asian_initial_home_odds asian_current_home_odds : Option String) :
    Option String :=
  match db_parse_handicap asian_initial_handicap,
        db_parse_handicap asian_current_handicap,
        safe_float asian_initial_home_odds,
        safe_float asian_current_home_odds with
  | some h_init, some h_curr, some home_init, some home_curr =>
      let handicap_change := h_curr - h_init
      let water_change := home_curr - home_init
      if |handicap_change| < 1/100 ∧ |water_change| < 2/100 then some "无变化"
      else if handicap_change > 1/100 then
        if water_change < -(2/100) then some "升盘降水"
        else if water_change > 2/100 then some "升盘升水"
        else some "升盘"
      else if handicap_change < -(1/100) then
        if water_change < -(2/100) then some "降盘降水"
        else if water_change > 2/100 then some "降盘升水"
        else some "降盘"
      else
        if water_change < -(2/100) then some "降水"
        else if water_change > 2/100 then some "升水"
        else some "无变化"
  | _, _, _, _ => none

/-- The nine-row classification table of spec §4.3, written from the
SPEC (thresholds 0.01 and 0.02, line-change evaluated first): this is
the reference the classifier is compared against, not source code. -/
def spec_movement_table (handicap_delta price_delta : ℚ) : String :=
  if handicap_delta > 1/100 then
    if price_delta < -(2/100) then "升盘降水"
    else if price_delta > 2/100 then "升盘升水"
    else "升盘"
  else if handicap_delta < -(1/100) then
    if price_delta < -(2/100) then "降盘降水"
    else if price_delta > 2/100 then "降盘升水"
    else "降盘"
  else
    if price_delta < -(2/100) then "降水"
    else if price_delta > 2/100 then "升水"
    else "无变化"

/-! ## OddsNormalizer -/

/-- Arrow-glyph stripping performed at the ingestion boundary,
`crawler.py.parse_asian_handicap` (lines 475-479):
`.replace('↑', '').replace('↓', '')`. -/
def strip_arrows (s : String) : String :=
  ⟨s.data.filter (fun c => c ≠ '↑' ∧ c ≠ '↓')⟩

/-- The consolidated OddsNormalizer `to_price` of the spec (§4.2, §9):
the arrow stripping of `crawler.py` (lines 475-479) composed with the
numeric conversion of `db_storage.py.safe_float` (lines 279-283). -/
def to_price (raw : Option String) : Option ℚ :=
  match raw with
  | none => none
  | some s => safe_float (some (strip_arrows s))

/-! ## CombinationSelector (`web_app.py.get_recommend` and
`recommend_high_odds.py.recommend_high_odds_2chuan1`) -/

/-- One entry of the candidate pool built before combination search:
only the match id and the decimal price matter to the selection loops. -/
structure Candidate where
  match_id : String
  odds : ℚ
deriving DecidableEq, Repr

/-- `itertools.combinations(l, n)`: all size-`n` subsequences of `l`
in the enumeration order Python uses. -/
def combinations : ℕ → List α → List (List α)
  | 0, _ => [[]]
  | _ + 1, [] => []
  | n + 1, x :: xs => ((combinations n xs).map (fun c => x :: c)) ++ combinations (n + 1) xs

/-- Loop body of the selection in `web_app.py.get_recommend`
(lines 968-984): skip combinations repeating a match id, otherwise keep
the combination whose price product is closest to the target.  There is
no acceptance band.  State: (best_combo, min_diff), starting
(None, 999). -/
def web_combo_step (target_odds : ℚ) (st : Option (List Candidate) × ℚ)
    (combo : List Candidate) : Option (List Candidate) × ℚ :=
  let match_ids := combo.map (fun c => c.match_id)
  if ¬ match_ids.Nodup then st
  else
    let total_odds := (combo.map (fun c => c.odds)).prod
    let diff := |total_odds - target_odds|
    if diff < st.2 then (some combo, diff) else st

/-- The combination search of `web_app.py.get_recommend` (lines
964-988): `None` (HTTP 404) when fewer than `n` candidates exist or no
combination survives; otherwise the minimum-distance combination. -/
def web_best_combo (candidates : List Candidate) (n : ℕ) (target_odds : ℚ) :
    Option (List Candidate) :=
  if candidates.length < n then none
  else ((combinations n candidates).foldl (web_combo_step target_odds) (none, 999)).1

/-- `itertools.combinations(l, 2)` as a list of ordered pairs. -/
def pairs : List α → List (α × α)
  | [] => []
  | x :: xs => (xs.map (fun y => (x, y))) ++ pairs xs

/-- Loop body of `recommend_high_odds.py.recommend_high_odds_2chuan1`
(lines 85-101): skip pairs from the same match; a pair may become the
best combination only when its price product lies in the acceptance
band `2.8 <= total_odds <= 3.5` around the fixed target 3.0. -/
def high_odds_step (st : Option (Candidate × Candidate) × ℚ)
    (p : Candidate × Candidate) : Option (Candidate × Candidate) × ℚ :=
  if p.1.match_id = p.2.match_id then st
  else
    let total_odds := p.1.odds * p.2.odds
    let diff := |total_odds - 3|
    if 14/5 ≤ total_odds ∧ total_odds ≤ 7/2 then
      if diff < st.2 then (some p, diff) else st
    else st

/-- The combination search of
`recommend_high_odds.py.recommend_high_odds_2chuan1` (lines 71-101):
`None` when fewer than 2 candidates exist or no pair is retained. -/
def recommend_high_odds_best (candidates : List Candidate) :
    Option (Candidate × Candidate) :=
  if candidates.length < 2 then none
  else ((pairs candidates).foldl high_odds_step (none, 999)).1

/-! ## PatternScorer (`predict_by_patterns.py.predict_single_match`
and `prediction_engine.py._predict_winner`) -/

/-- The odds fields of a match record that
`predict_by_patterns.py.predict_single_match` (lines 121-281) reads;
`none` models a missing field or a stored `None`.  The league name uses
`""` for a missing value, as `m.get('league', '')` does. -/
structure PbpMatch where
  league : String
  euro_current_win : Option String
  euro_initial_win : Option String
  euro_current_lose : Option String
  euro_initial_lose : Option String
  asian_current_home_odds : Option String
  asian_initial_home_odds : Option String
  asian_current_handicap : Option String
  asian_initial_handicap : Option String
  asian_movement_label : Option String
  ou_current_total : Option String
  ou_initial_total : Option String

/-- Python `a or b` on string-or-None fields: the first operand unless
it is falsy (`None` or `""`). -/
def pyOr (a b : Option String) : Option String :=
  match a with
  | some s => if s = "" then b else a
  | none => b

/-- League feature lists of `predict_by_patterns.py` (lines 57-72). -/
def water_down_leagues : List String :=
  ["欧罗巴", "法乙", "英冠", "葡超", "世外欧洲", "日职", "英超", "法甲"]

def trap_leagues : List String :=
  ["瑞典超", "葡超", "世外欧洲", "挪超", "日职乙", "德甲", "日职", "美职联"]

def high_goal_leagues : List String :=
  ["荷甲", "世外欧洲", "德甲", "挪超", "欧冠", "美职联"]

def low_goal_leagues : List String :=
  ["日职乙", "法乙", "意甲", "德乙", "瑞典超"]

def deep_handicap_leagues : List String :=
  ["世外欧洲", "葡超", "荷甲"]

def level_draw_leagues : List String :=
  ["葡超", "英超", "法乙", "K1联赛", "瑞典超"]

def level_away_leagues : List String :=
  ["日职乙", "美职联", "荷乙"]

/-- Mutable prediction state of `predict_single_match`: the three
candidate-outcome scores, the count of reason strings appended (the
strings themselves only matter through their count, used by the final
low-information penalty), the side-market predictions and the warning
count. -/
structure PbpState where
  home_score : ℤ
  draw_score : ℤ
  away_score : ℤ
  reasons : ℕ
  asian_prediction : Option String
  ou_prediction : Option String
  warnings : ℕ
deriving DecidableEq, Repr

def pbpInit : PbpState := ⟨0, 0, 0, 0, none, none, 0⟩

/-- 规律1 (lines 169-194): European 1X2 price levels and the
opening-to-current drop of the home-win price (trap-league reversal). -/
def pbp_rule1 (league : String) (euro_win euro_lose euro_init_win : Option ℚ)
    (s : PbpState) : PbpState :=
  match euro_win, euro_lose with
  | some w, some l =>
      if w = 0 ∨ l = 0 then s
      else
        let s :=
          if w < 9/5 then
            { s with home_score := s.home_score + 30, reasons := s.reasons + 1 }
          else if w < 11/5 then
            { s with home_score := s.home_score + 15, reasons := s.reasons + 1 }
          else if l < 9/5 then
            { s with away_score := s.away_score + 30, reasons := s.reasons + 1 }
          else if l < 11/5 then
            { s with away_score := s.away_score + 15, reasons := s.reasons + 1 }
          else s
        match euro_init_win with
        | some iw =>
            if iw = 0 then s
            else if w - iw < -(3/20) then
              if league ∈ trap_leagues then
                { s with away_score := s.away_score + 20, reasons := s.reasons + 1,
                         warnings := s.warnings + 1 }
              else
                { s with home_score := s.home_score + 10, reasons := s.reasons + 1 }
            else s
        | none => s
  | _, _ => s

/-- 规律2 (lines 196-221): level-handicap draw/away leagues and the
deep-handicap side picks (the two deep branches differ only in the
reason text, so they collapse here). -/
def pbp_rule2 (league : String) (handicap asian_home : Option ℚ)
    (s : PbpState) : PbpState :=
  match handicap with
  | none => s
  | some hv =>
      if |hv| ≤ 1/4 then
        let s :=
          match asian_home with
          | some ah =>
              if ah ≠ 0 ∧ 101/100 ≤ ah ∧ ah ≤ 11/10 then
                { s with draw_score := s.draw_score + 25, reasons := s.reasons + 1 }
              else s
          | none => s
        if league ∈ level_draw_leagues then
          { s with draw_score := s.draw_score + 15, reasons := s.reasons + 1 }
        else if league ∈ level_away_leagues then
          { s with away_score := s.away_score + 15, reasons := s.reasons + 1 }
        else s
      else if hv ≥ 3/2 then
        { s with asian_prediction := some "受让方", reasons := s.reasons + 1 }
      else if hv ≤ -(3/2) then
        { s with asian_prediction := some "让方", reasons := s.reasons + 1 }
      else s

/-- 规律3 (lines 223-237): movement of the Asian home price. -/
def pbp_rule3 (league : String) (asian_init_home asian_home : Option ℚ)
    (s : PbpState) : PbpState :=
  match asian_init_home, asian_home with
  | some aih, some ah =>
      if aih = 0 ∨ ah = 0 then s
      else if ah - aih < -(1/20) then
        if league ∈ water_down_leagues then
          { s with home_score := s.home_score + 20,
                   asian_prediction := some "让胜", reasons := s.reasons + 1 }
        else
          { s with home_score := s.home_score + 10, reasons := s.reasons + 1 }
      else if ah - aih > 1/20 then
        { s with away_score := s.away_score + 10, reasons := s.reasons + 1 }
      else s
  | _, _ => s

/-- 规律4 (lines 239-247): the persisted movement label. -/
def pbp_rule4 (asian_label : String) (s : PbpState) : PbpState :=
  if asian_label = "" then s
  else if asian_label = "升盘降水" then
    { s with home_score := s.home_score + 15, reasons := s.reasons + 1 }
  else if asian_label = "降盘降水" then
    { s with away_score := s.away_score + 15, reasons := s.reasons + 1 }
  else if asian_label = "升盘升水" ∨ asian_label = "降盘升水" then
    { s with warnings := s.warnings + 1 }
  else s

/-- 规律5 (lines 249-259): totals-market lean from the league lists and
the level-handicap small-total override. -/
def pbp_rule5 (league : String) (ou_total handicap : Option ℚ)
    (s : PbpState) : PbpState :=
  match ou_total with
  | none => s
  | some t =>
      if t = 0 then s
      else
        let s :=
          if league ∈ high_goal_leagues then
            { s with ou_prediction := some "大球", reasons := s.reasons + 1 }
          else if league ∈ low_goal_leagues then
            { s with ou_prediction := some "小球", reasons := s.reasons + 1 }
          else s
        match handicap with
        | some hv =>
            if |hv| ≤ 1/4 then
              { s with ou_prediction := some "小球", reasons := s.reasons + 1 }
            else s
        | none => s

/-- The rule pipeline of `predict_by_patterns.py.predict_single_match`
(lines 141-259), from the raw match fields to the accumulated state. -/
def pbp_run_rules (m : PbpMatch) : PbpState :=
  let euro_win := pbp_safe_float (pyOr m.euro_current_win m.euro_initial_win)
  let euro_lose := pbp_safe_float (pyOr m.euro_current_lose m.euro_initial_lose)
  let euro_init_win := pbp_safe_float m.euro_initial_win
  let asian_home := pbp_safe_float (pyOr m.asian_current_home_odds m.asian_initial_home_odds)
  let asian_init_home := pbp_safe_float m.asian_initial_home_odds
  let handicap := parse_handicap (pyOr m.asian_current_handicap m.asian_initial_handicap)
  let asian_label := m.asian_movement_label.getD ""
  let ou_total := pbp_safe_float (pyOr m.ou_current_total m.ou_initial_total)
  (pbp_rule5 m.league ou_total handicap
    (pbp_rule4 asian_label
      (pbp_rule3 m.league asian_init_home asian_home
        (pbp_rule2 m.league handicap asian_home
          (pbp_rule1 m.league euro_win euro_lose euro_init_win pbpInit)))))

/-- Final verdict computation of `predict_single_match` (lines
261-276): the match-outcome label and its confidence, from the
accumulated rule state. -/
def pbp_verdict (s : PbpState) : String × ℤ :=
  let max_score := max s.home_score (max s.draw_score s.away_score)
  let rc : String × ℤ :=
    if max_score = 0 then ("难以判断", 40)
    else if s.home_score = max_score then ("主胜", min 90 (50 + s.home_score))
    else if s.away_score = max_score then ("客胜", min 90 (50 + s.away_score))
    else ("平局", min 85 (50 + s.draw_score))
  if s.reasons < 2 then (rc.1, max 40 (rc.2 - 20)) else rc

/-- `predict_by_patterns.py.predict_single_match` (lines 121-281),
restricted to its match-outcome verdict and confidence. -/
def predict_single_match (m : PbpMatch) : String × ℤ :=
  pbp_verdict (pbp_run_rules m)

/-- First phase of `prediction_engine.py._predict_winner` (lines
186-210): prediction and confidence from the three 1X2 prices alone
(all three must be truthy). -/
def pe_winner_base (euro_win euro_draw euro_lose : Option ℚ) : String × ℚ :=
  match euro_win, euro_draw, euro_lose with
  | some w, some d, some l =>
      if w = 0 ∨ d = 0 ∨ l = 0 then ("draw", 50)
      else if w < 3/2 then ("home", 85)
      else if l < 3/2 then ("away", 85)
      else if w < 2 then ("home", 70)
      else if l < 2 then ("away", 70)
      else if d < 16/5 then ("draw", 60)
      else if w < l then ("home", 55)
      else if l < w then ("away", 55)
      else ("draw", 50)
  | _, _, _ => ("draw", 50)

/-- `prediction_engine.py._predict_winner` (lines 184-229): the base
verdict adjusted by the win-rate gap of the two team forms.  The
confidence is a float, modelled as `ℚ`; a form is its win rate,
`none` for a missing or empty form dict. -/
def pe_predict_winner (home_form away_form : Option ℚ)
    (euro_win euro_draw euro_lose : Option ℚ) : String × ℚ :=
  let pc := pe_winner_base euro_win euro_draw euro_lose
  match home_form, away_form with
  | some hr, some ar =>
      if hr - ar > 3/10 then
        if pc.1 = "home" then (pc.1, min 90 (pc.2 + 10))
        else if pc.1 = "away" then (pc.1, max 50 (pc.2 - 10))
        else pc
      else if ar - hr > 3/10 then
        if pc.1 = "away" then (pc.1, min 90 (pc.2 + 10))
        else if pc.1 = "home" then (pc.1, max 50 (pc.2 - 10))
        else pc
      else pc
  | _, _ => pc

/-! ## Theorems -/

/-- C1: for every final score and handicap value, the settlement
classification of `_check_asian_handicap` computes the adjusted margin
`(home + h) - away` and settles UPPER_WINS (= the `'home'` side, which
gives the handicap) when it is positive, LOWER_WINS (`'away'`) when
negative, PUSH (the 走盘 branch) when zero; at home=2, away=1, h=-0.5
the upper (home) side wins the line, and the full evaluator credits a
`'home'` prediction there (the token `受半球` parses to -0.5). -/
theorem handicap_settlement_margin (home_score away_score h : ℚ) :
    ((home_score + h) - away_score > 0 →
      asian_actual_result home_score away_score h = some "home") ∧
    ((home_score + h) - away_score < 0 →
      asian_actual_result home_score away_score h = some "away") ∧
    ((home_score + h) - away_score = 0 →
      asian_actual_result home_score away_score h = none) ∧
    asian_actual_result 2 1 (-(1/2)) = some "home" ∧
    check_asian_handicap 2 1 (some "home") (some "受半球") = true := by
  refine ⟨fun hgt => ?_, fun hlt => ?_, fun heq => ?_, ?_, ?_⟩
  · simp only [asian_actual_result]
    rw [if_pos (by linarith)]
  · simp only [asian_actual_result]
    rw [if_neg (by linarith), if_pos (by linarith)]
  · simp only [asian_actual_result]
    rw [if_neg (by linarith), if_neg (by linarith)]
  · simp only [asian_actual_result]
    norm_num
  · simp [check_asian_handicap, pr_parse_handicap, pr_map, lookupMap, stripShou,
      asian_actual_result]
    norm_num

/-- Witness for C1: the push-free case at the spec scenario
home=2, away=1, h=-0.5. -/
theorem handicap_settlement_margin_witness :
    asian_actual_result 2 1 (-(1/2)) = some "home" :=
  (handicap_settlement_margin 2 1 (-(1/2))).1 (by norm_num)

/-- C2 counterexample: the evaluators do not return a three-valued
outcome with a distinct push, and do not return null on missing lines.
A push (score 1-1 on a level handicap, or total exactly on the line)
returns the Boolean `false` — the very value a losing prediction gets
(score 0-2 on the same line) — and a missing handicap or total also
returns `false`, not a null/undetermined value. -/
theorem settlement_push_is_false :
    check_asian_handicap 1 1 (some "home") (some "平手") = false ∧
    check_asian_handicap 0 2 (some "home") (some "平手") = false ∧
    check_asian_handicap 2 1 (some "home") none = false ∧
    check_over_under 3 0 (some "over") (some "3") = false ∧
    check_over_under 2 1 (some "over") none = false := by
  refine ⟨?_, ?_, rfl, ?_, rfl⟩
  · simp [check_asian_handicap, pr_parse_handicap, pr_map, lookupMap, stripShou,
      asian_actual_result]
  · simp [check_asian_handicap, pr_parse_handicap, pr_map, lookupMap, stripShou,
      asian_actual_result]
    norm_num
    decide
  · simp [check_over_under, pyFloat, parseUnsigned, digitsToNat]

/-- C2 (amended): both evaluators return a Boolean correctness flag
with exactly the values `true`/`false`; a push returns `false` (the
same value as an incorrect prediction), and a missing prediction or
missing score line also returns `false` rather than a distinct null. -/
theorem settlement_boolean_contract (home_score away_score : ℚ)
    (p t : Option String) :
    check_asian_handicap home_score away_score none t = false ∧
    check_asian_handicap home_score away_score p none = false ∧
    check_over_under home_score away_score none t = false ∧
    check_over_under home_score away_score p none = false ∧
    (∀ hs v, pr_parse_handicap (some hs) = some v →
      home_score + v = away_score →
      check_asian_handicap home_score away_score p (some hs) = false) ∧
    (∀ ts line, pyFloat ts = some line → home_score + away_score = line →
      check_over_under home_score away_score p (some ts) = false) := by
  refine ⟨?_, ?_, ?_, ?_, fun hs v hv hpush => ?_, fun ts line hl hpush => ?_⟩
  · cases t <;> rfl
  · cases p <;> rfl
  · cases t <;> rfl
  · cases p <;> rfl
  · cases p with
    | none => rfl
    | some pp =>
        simp only [check_asian_handicap]
        split_ifs with hfalsy
        · rfl
        · rw [hv]
          have hres : asian_actual_result home_score away_score v = none := by
            simp only [asian_actual_result]
            rw [if_neg (by linarith), if_neg (by linarith)]
          simp [hres]
  · cases p with
    | none => rfl
    | some pp =>
        simp only [check_over_under]
        split_ifs with hfalsy
        · rfl
        · rw [hl]
          have hgt : ¬ (home_score + away_score > line) := by linarith
          have hlt : ¬ (home_score + away_score < line) := by linarith
          simp [hgt, hlt]

/-- Witness for C2 (amended): a push on the totals line 3 with final
score 2-1 is settled `false`. -/
theorem settlement_boolean_contract_witness :
    check_over_under 2 1 (some "over") (some "3") = false :=
  (settlement_boolean_contract 2 1 (some "over") none).2.2.2.2.2 "3" 3
    (by simp [pyFloat, parseUnsigned, digitsToNat]) (by norm_num)

/-- C3: whenever all four snapshot fields parse, the movement
classifier returns exactly the label of the nine-row threshold table
(`spec_movement_table`, thresholds 0.01 on the handicap delta and 0.02
on the price delta, line change evaluated first), and the spec scenario
平手 → 半球 with home price 1.95 → 1.80 classifies as 升盘降水
(line-up, price-down). -/
theorem movement_label_matches_table
    (h0s h1s p0s p1s : Option String) (h0 h1 p0 p1 : ℚ)
    (eh0 : db_parse_handicap h0s = some h0)
    (eh1 : db_parse_handicap h1s = some h1)
    (ep0 : safe_float p0s = some p0)
    (ep1 : safe_float p1s = some p1) :
    calc_asian_movement_label h0s h1s p0s p1s =
      some (spec_movement_table (h1 - h0) (p1 - p0)) ∧
    calc_asian_movement_label (some "平手") (some "半球")
      (some "1.95") (some "1.80") = some "升盘降水" := by
  constructor
  · simp only [calc_asian_movement_label, eh0, eh1, ep0, ep1]
    by_cases hc : |h1 - h0| < 1/100 ∧ |p1 - p0| < 2/100
    · have a := abs_lt.mp hc.1
      have b := abs_lt.mp hc.2
      rw [if_pos hc]
      simp only [spec_movement_table]
      rw [if_neg (by linarith [a.1, a.2]), if_neg (by linarith [a.1, a.2]),
        if_neg (by linarith [b.1, b.2]), if_neg (by linarith [b.1, b.2])]
    · rw [if_neg hc]
      simp only [spec_movement_table]
      split_ifs <;> rfl
  · simp [calc_asian_movement_label, db_parse_handicap, handicap_map, lookupMap,
      stripShou, safe_float, pyFloat, parseUnsigned, digitsToNat]
    norm_num [abs_lt]

/-- Witness for C3: the table equality applied to the spec scenario. -/
theorem movement_label_matches_table_witness :
    calc_asian_movement_label (some "平手") (some "半球")
      (some "1.95") (some "1.80") = some "升盘降水" :=
  (movement_label_matches_table (some "平手") (some "半球")
    (some "1.95") (some "1.80") 0 (1/2) (39/20) (9/5)
    (by simp [db_parse_handicap, handicap_map, lookupMap, stripShou])
    (by simp [db_parse_handicap, handicap_map, lookupMap, stripShou])
    (by simp [safe_float, pyFloat, parseUnsigned, digitsToNat]; norm_num)
    (by simp [safe_float, pyFloat, parseUnsigned, digitsToNat]; norm_num)).2

/-- C4: the movement classifier returns null whenever any one of its
four input fields is null, for every combination of missing inputs. -/
theorem movement_label_null_propagation
    (h0s h1s p0s p1s : Option String)
    (h : h0s = none ∨ h1s = none ∨ p0s = none ∨ p1s = none) :
    calc_asian_movement_label h0s h1s p0s p1s = none := by
  cases e0 : db_parse_handicap h0s with
  | none => cases e1 : db_parse_handicap h1s <;>
      cases e2 : safe_float p0s <;> cases e3 : safe_float p1s <;>
      simp [calc_asian_movement_label, e0, e1, e2, e3]
  | some a =>
    cases e1 : db_parse_handicap h1s with
    | none => cases e2 : safe_float p0s <;> cases e3 : safe_float p1s <;>
        simp [calc_asian_movement_label, e0, e1, e2, e3]
    | some b =>
      cases e2 : safe_float p0s with
      | none => cases e3 : safe_float p1s <;>
          simp [calc_asian_movement_label, e0, e1, e2, e3]
      | some c =>
        cases e3 : safe_float p1s with
        | none => simp [calc_asian_movement_label, e0, e1, e2, e3]
        | some d =>
          exfalso
          rcases h with h | h | h | h <;> subst h
          · simp [db_parse_handicap] at e0
          · simp [db_parse_handicap] at e1
          · simp [safe_float] at e2
          · simp [safe_float] at e3

/-- Witness for C4: all four inputs missing. -/
theorem movement_label_null_propagation_witness :
    calc_asian_movement_label none none none none = none :=
  movement_label_null_propagation none none none none (Or.inl rfl)

/-- Folding the high-odds selection step preserves the invariant that
any retained pair has its price product inside the band [2.8, 3.5]. -/
theorem high_odds_foldl_band (l : List (Candidate × Candidate))
    (st : Option (Candidate × Candidate) × ℚ)
    (hst : ∀ q, st.1 = some q → 14/5 ≤ q.1.odds * q.2.odds ∧ q.1.odds * q.2.odds ≤ 7/2) :
    ∀ q, (l.foldl high_odds_step st).1 = some q →
      14/5 ≤ q.1.odds * q.2.odds ∧ q.1.odds * q.2.odds ≤ 7/2 := by
  induction l generalizing st with
  | nil => exact hst
  | cons x xs ih =>
      intro q hq
      refine ih (high_odds_step st x) ?_ q hq
      intro q' hq'
      simp only [high_odds_step] at hq'
      split_ifs at hq' with hid hband hdiff
      · exact hst q' hq'
      · have hx : some x = some q' := hq'
        cases hx
        exact hband
      · exact hst q' hq'
      · exact hst q' hq'

/-- Folding the high-odds selection step from an empty best pair keeps
it empty when no pair of the list lies in the band. -/
theorem high_odds_foldl_none (l : List (Candidate × Candidate))
    (st : Option (Candidate × Candidate) × ℚ) (hst : st.1 = none)
    (h : ∀ q ∈ l, ¬ (14/5 ≤ q.1.odds * q.2.odds ∧ q.1.odds * q.2.odds ≤ 7/2)) :
    (l.foldl high_odds_step st).1 = none := by
  induction l generalizing st with
  | nil => exact hst
  | cons x xs ih =>
      refine ih (high_odds_step st x) ?_ (fun q hq => h q (List.mem_cons_of_mem x hq))
      simp only [high_odds_step]
      split_ifs with hid hband hdiff
      · exact hst
      · exact absurd hband (h x (List.mem_cons_self x xs))
      · exact hst
      · exact hst

/-- C5 counterexample: the `web_app.py` combination search has no
acceptance band — with two candidates priced 10 and target 3.0 it
returns the only combination, whose price product 100 lies far outside
the recommended band 3.0 × [0.93, 1.17] (upper edge 3.51). -/
theorem web_combo_ignores_band :
    web_best_combo [⟨"a", 10⟩, ⟨"b", 10⟩] 2 3 = some [⟨"a", 10⟩, ⟨"b", 10⟩] ∧
    (([⟨"a", 10⟩, ⟨"b", 10⟩] : List Candidate).map (fun c => c.odds)).prod = 100 ∧
    (3 : ℚ) * (117/100) < 100 := by
  refine ⟨?_, by norm_num, by norm_num⟩
  simp [web_best_combo, combinations, web_combo_step, List.foldl]
  norm_num

/-- C5 (amended): the `recommend_high_odds.py` selector never returns
a pair whose price product lies outside the band [2.8, 3.5] =
3.0 × [0.93, 1.17] around its fixed target 3.0, and returns null when
fewer than 2 candidates exist or when no pair's product lies in the
band; the `web_app.py` selector only guarantees the
fewer-than-n null — it applies no band (see the counterexample). -/
theorem high_odds_combo_band (candidates : List Candidate) :
    (∀ c1 c2, recommend_high_odds_best candidates = some (c1, c2) →
      14/5 ≤ c1.odds * c2.odds ∧ c1.odds * c2.odds ≤ 7/2) ∧
    (candidates.length < 2 → recommend_high_odds_best candidates = none) ∧
    ((∀ q ∈ pairs candidates,
        ¬ (14/5 ≤ q.1.odds * q.2.odds ∧ q.1.odds * q.2.odds ≤ 7/2)) →
      recommend_high_odds_best candidates = none) ∧
    (∀ (pool : List Candidate) (n : ℕ) (target : ℚ),
      pool.length < n → web_best_combo pool n target = none) := by
  refine ⟨fun c1 c2 hres => ?_, fun hlen => ?_, fun hband => ?_,
    fun pool n target hlen => ?_⟩
  · simp only [recommend_high_odds_best] at hres
    split_ifs at hres with h2
    exact high_odds_foldl_band (pairs candidates) (none, 999) (by simp) (c1, c2) hres
  · simp only [recommend_high_odds_best]
    rw [if_pos hlen]
  · simp only [recommend_high_odds_best]
    split_ifs with h2
    · rfl
    · exact high_odds_foldl_none (pairs candidates) (none, 999) rfl hband
  · simp only [web_best_combo]
    rw [if_pos hlen]

/-- Witness for C5 (amended): the empty pool yields null, and a
two-candidate in-band pool (prices 1.80 and 1.75, product 3.15) yields
a pair whose product the theorem places inside [2.8, 3.5]. -/
theorem high_odds_combo_band_witness :
    recommend_high_odds_best [] = none ∧
    (14:ℚ)/5 ≤ (9/5 : ℚ) * (7/4) ∧ (9/5 : ℚ) * (7/4) ≤ 7/2 := by
  refine ⟨(high_odds_combo_band []).2.1 (by norm_num), ?_⟩
  exact (high_odds_combo_band [⟨"a", 9/5⟩, ⟨"b", 7/4⟩]).1 ⟨"a", 9/5⟩ ⟨"b", 7/4⟩
    (by
      simp [recommend_high_odds_best, pairs, high_odds_step, List.foldl]
      have hband : (14:ℚ)/5 ≤ 9/5 * (7/4) ∧ (9:ℚ)/5 * (7/4) ≤ 7/2 := by
        constructor <;> norm_num
      have hcond : |(9:ℚ)/5 * (7/4) - 3| < 999 := by
        rw [abs_of_nonneg (by norm_num)]
        norm_num
      rw [if_pos hband, if_pos hcond])

/-- C6: `to_price` (the consolidated OddsNormalizer: arrow stripping at
the crawler boundary followed by `safe_float`) is total, returns null
on null, the empty string and non-numeric input, and strips directional
arrow glyphs before conversion, so `"1.95↑"` converts to 1.95 (and
`"1.80↓"` to 1.80) rather than to null.  The last conjunct states the
strip-then-convert factoring for every input string. -/
theorem to_price_contract :
    to_price none = none ∧
    to_price (some "") = none ∧
    to_price (some "abc") = none ∧
    to_price (some "平手") = none ∧
    to_price (some "1.95↑") = some (39/20) ∧
    to_price (some "1.80↓") = some (9/5) ∧
    (∀ s : String, to_price (some s) = pyFloat (strip_arrows s)) := by
  refine ⟨rfl, ?_, ?_, ?_, ?_, ?_, fun s => rfl⟩
  · simp [to_price, strip_arrows, safe_float, pyFloat, parseUnsigned]
  · simp [to_price, strip_arrows, safe_float, pyFloat, parseUnsigned]
  · simp [to_price, strip_arrows, safe_float, pyFloat, parseUnsigned]
  · simp [to_price, strip_arrows, safe_float, pyFloat, parseUnsigned, digitsToNat]
    norm_num
  · simp [to_price, strip_arrows, safe_float, pyFloat, parseUnsigned, digitsToNat]
    norm_num

/-- A string with no digit character has no match of `\d+\.?\d*`. -/
theorem firstNumVal_of_no_digit (cs : List Char)
    (h : ∀ c ∈ cs, ¬ c.isDigit) : firstNumVal cs = none := by
  induction cs with
  | nil => rfl
  | cons c rest ih =>
      simp only [firstNumVal]
      rw [if_neg (h c (List.mem_cons_self c rest))]
      exact ih (fun x hx => h x (List.mem_cons_of_mem c hx))

/-- C7 counterexample: the fixed vocabulary of the handicap parser in
`db_storage.py` stops at 两球半 = 2.5 — its value list is exactly the
quarter-ball values up to 9/4 and 5/2, and neither 2.75 nor 3.5 is the
value of any phrase, so the vocabulary does not cover quarter-ball
values up to 3.5. -/
theorem handicap_vocabulary_stops_at_2_5 :
    handicap_map.map Prod.snd =
      [0, 1/4, 1/4, 1/2, 3/4, 3/4, 1, 5/4, 5/4, 3/2, 7/4, 7/4, 2, 9/4, 5/2] ∧
    ¬ ((11/4 : ℚ) ∈ handicap_map.map Prod.snd) ∧
    ¬ ((7/2 : ℚ) ∈ handicap_map.map Prod.snd) := by
  refine ⟨rfl, ?_, ?_⟩ <;>
    · simp only [handicap_map, List.map_cons, List.map_nil, List.mem_cons,
        List.not_mem_nil, or_false]
      push_neg
      norm_num

/-- C7 (amended): the vocabulary covers every quarter-ball value from 0
up to 2.5 (each such value has a phrase that `parse` maps to it in the
non-receiving form); a token outside the vocabulary is parsed by
extracting its first numeric substring (`"2.75"` parses to 2.75), and a
token outside the vocabulary with no digits parses to null. -/
theorem handicap_vocabulary_coverage (v : ℚ) :
    (v ∈ ([0, 1/4, 1/2, 3/4, 1, 5/4, 3/2, 7/4, 2, 9/4, 5/2] : List ℚ) →
      ∃ s : String, lookupMap handicap_map s = some v ∧
        db_parse_handicap (some s) = some v) ∧
    (∀ s : String, s ≠ "" → (∀ c ∈ s.data, ¬ c.isDigit) →
      lookupMap handicap_map ⟨stripShou s.data⟩ = none →
      db_parse_handicap (some s) = none) ∧
    db_parse_handicap (some "2.75") = some (11/4) := by
  refine ⟨fun hv => ?_, fun s hne hnd hlk => ?_, ?_⟩
  · simp only [List.mem_cons, List.not_mem_nil, or_false] at hv
    rcases hv with rfl | rfl | rfl | rfl | rfl | rfl | rfl | rfl | rfl | rfl | rfl
    · exact ⟨"平手", by simp [handicap_map, lookupMap],
        by simp [db_parse_handicap, handicap_map, lookupMap, stripShou]⟩
    · exact ⟨"平/半", by simp [handicap_map, lookupMap],
        by simp [db_parse_handicap, handicap_map, lookupMap, stripShou]⟩
    · exact ⟨"半球", by simp [handicap_map, lookupMap],
        by simp [db_parse_handicap, handicap_map, lookupMap, stripShou]⟩
    · exact ⟨"半/一", by simp [handicap_map, lookupMap],
        by simp [db_parse_handicap, handicap_map, lookupMap, stripShou]⟩
    · exact ⟨"一球", by simp [handicap_map, lookupMap],
        by simp [db_parse_handicap, handicap_map, lookupMap, stripShou]⟩
    · exact ⟨"一/球半", by simp [handicap_map, lookupMap],
        by simp [db_parse_handicap, handicap_map, lookupMap, stripShou]⟩
    · exact ⟨"球半", by simp [handicap_map, lookupMap],
        by simp [db_parse_handicap, handicap_map, lookupMap, stripShou]⟩
    · exact ⟨"球半/两", by simp [handicap_map, lookupMap],
        by simp [db_parse_handicap, handicap_map, lookupMap, stripShou]⟩
    · exact ⟨"两球", by simp [handicap_map, lookupMap],
        by simp [db_parse_handicap, handicap_map, lookupMap, stripShou]⟩
    · exact ⟨"两/两球半", by simp [handicap_map, lookupMap],
        by simp [db_parse_handicap, handicap_map, lookupMap, stripShou]⟩
    · exact ⟨"两球半", by simp [handicap_map, lookupMap],
        by simp [db_parse_handicap, handicap_map, lookupMap, stripShou]⟩
  · simp only [db_parse_handicap]
    rw [if_neg hne, hlk, firstNumVal_of_no_digit s.data hnd]
  · simp [db_parse_handicap, handicap_map, lookupMap, stripShou, firstNumVal,
      digitsToNat]
    norm_num

/-- Witness for C7 (amended): the phrase for 1.5 exists, and a
digit-free out-of-vocabulary token parses to null. -/
theorem handicap_vocabulary_coverage_witness :
    (∃ s : String, lookupMap handicap_map s = some (3/2) ∧
      db_parse_handicap (some s) = some (3/2)) ∧
    db_parse_handicap (some "你好") = none := by
  constructor
  · exact (handicap_vocabulary_coverage (3/2)).1 (by norm_num)
  · exact (handicap_vocabulary_coverage 0).2.1 "你好" (by decide) (by decide)
      (by simp [handicap_map, lookupMap, stripShou])

/-- C8: the sign property of the handicap parser — for every token `T`
not containing the receiving marker 受, if `T` parses to `v` then the
受-marked variant `受 ++ T` parses to exactly `-v`; in particular 球半
parses to 1.5 and 受一球 parses to -1.0. -/
theorem handicap_receiving_sign (T : String) (v : ℚ)
    (hT : '受' ∉ T.data) (hv : parse_handicap (some T) = some v) :
    parse_handicap (some ("受" ++ T)) = some (-v) ∧
    parse_handicap (some "球半") = some (3/2) ∧
    parse_handicap (some "受一球") = some (-1) := by
  refine ⟨?_, by simp [parse_handicap, handicap_map, lookupMap, stripShou],
    by simp [parse_handicap, handicap_map, lookupMap, stripShou]⟩
  have hdata : ("受" ++ T).data = '受' :: T.data := rfl
  have hne : T ≠ "" := by
    intro hT0
    rw [hT0] at hv
    simp [parse_handicap] at hv
  have hclean : stripShou T.data = T.data := by
    simp only [stripShou]
    rw [List.filter_eq_self]
    intro a ha
    simp only [ne_eq, decide_eq_true_eq]
    exact fun hcs => hT (hcs ▸ ha)
  have hstrip : stripShou ('受' :: T.data) = T.data := by
    simp only [stripShou, List.filter_cons]
    rw [if_neg (by simp)]
    exact hclean
  have hne2 : ("受" ++ T) ≠ "" := by
    intro h0
    have hd0 : ('受' :: T.data) = ([] : List Char) := by
      rw [← hdata, h0]
    exact List.noConfusion hd0
  have hc1 : ('受' ∈ '受' :: T.data) = True := eq_true (List.mem_cons_self _ _)
  have hc2 : ('受' ∈ T.data) = False := eq_false hT
  simp only [parse_handicap, hdata] at hv ⊢
  rw [if_neg hne] at hv
  rw [if_neg hne2]
  rw [hstrip]
  simp only [hclean] at hv
  simp only [hc1, hc2, if_true, if_false] at hv ⊢
  cases hlk : lookupMap handicap_map ⟨T.data⟩ with
  | some w =>
      rw [hlk] at hv
      have hv' : some w = some v := hv
      have hw : w = v := by injection hv'
      show some (-w) = some (-v)
      rw [hw]
  | none =>
      rw [hlk] at hv
      cases hfn : firstNumVal T.data with
      | some w =>
          rw [hfn] at hv
          have hv' : some w = some v := hv
          have hw : w = v := by injection hv'
          show some (-w) = some (-v)
          rw [hw]
      | none =>
          rw [hfn] at hv
          exact Option.noConfusion hv

/-- Witness for C8: applying the sign property to 一球 gives
受一球 ↦ -1.0. -/
theorem handicap_receiving_sign_witness :
    parse_handicap (some ("受" ++ "一球")) = some (-1) :=
  (handicap_receiving_sign "一球" 1 (by decide)
    (by simp [parse_handicap, handicap_map, lookupMap, stripShou])).1

/-- Rule 1 only ever adds points: it preserves nonnegativity of the
three outcome scores. -/
theorem pbp_rule1_nonneg (league : String) (w l iw : Option ℚ) (s : PbpState)
    (h : 0 ≤ s.home_score ∧ 0 ≤ s.draw_score ∧ 0 ≤ s.away_score) :
    0 ≤ (pbp_rule1 league w l iw s).home_score ∧
    0 ≤ (pbp_rule1 league w l iw s).draw_score ∧
    0 ≤ (pbp_rule1 league w l iw s).away_score := by
  obtain ⟨h1, h2, h3⟩ := h
  rcases w with _ | w <;> rcases l with _ | l <;> rcases iw with _ | iw <;>
    simp only [pbp_rule1] <;> (try split_ifs) <;> (try simp) <;> omega

/-- Rule 2 only ever adds points. -/
theorem pbp_rule2_nonneg (league : String) (handicap asian_home : Option ℚ)
    (s : PbpState)
    (h : 0 ≤ s.home_score ∧ 0 ≤ s.draw_score ∧ 0 ≤ s.away_score) :
    0 ≤ (pbp_rule2 league handicap asian_home s).home_score ∧
    0 ≤ (pbp_rule2 league handicap asian_home s).draw_score ∧
    0 ≤ (pbp_rule2 league handicap asian_home s).away_score := by
  obtain ⟨h1, h2, h3⟩ := h
  rcases handicap with _ | hv <;> rcases asian_home with _ | ah <;>
    simp only [pbp_rule2] <;> (try split_ifs) <;> (try simp) <;> omega

/-- Rule 3 only ever adds points. -/
theorem pbp_rule3_nonneg (league : String) (aih ah : Option ℚ) (s : PbpState)
    (h : 0 ≤ s.home_score ∧ 0 ≤ s.draw_score ∧ 0 ≤ s.away_score) :
    0 ≤ (pbp_rule3 league aih ah s).home_score ∧
    0 ≤ (pbp_rule3 league aih ah s).draw_score ∧
    0 ≤ (pbp_rule3 league aih ah s).away_score := by
  obtain ⟨h1, h2, h3⟩ := h
  rcases aih with _ | aih <;> rcases ah with _ | ah <;>
    simp only [pbp_rule3] <;> (try split_ifs) <;> (try simp) <;> omega

/-- Rule 4 only ever adds points. -/
theorem pbp_rule4_nonneg (asian_label : String) (s : PbpState)
    (h : 0 ≤ s.home_score ∧ 0 ≤ s.draw_score ∧ 0 ≤ s.away_score) :
    0 ≤ (pbp_rule4 asian_label s).home_score ∧
    0 ≤ (pbp_rule4 asian_label s).draw_score ∧
    0 ≤ (pbp_rule4 asian_label s).away_score := by
  obtain ⟨h1, h2, h3⟩ := h
  simp only [pbp_rule4]
  split_ifs <;> (try simp) <;> omega

/-- Rule 5 only ever adds points. -/
theorem pbp_rule5_nonneg (league : String) (ou_total handicap : Option ℚ)
    (s : PbpState)
    (h : 0 ≤ s.home_score ∧ 0 ≤ s.draw_score ∧ 0 ≤ s.away_score) :
    0 ≤ (pbp_rule5 league ou_total handicap s).home_score ∧
    0 ≤ (pbp_rule5 league ou_total handicap s).draw_score ∧
    0 ≤ (pbp_rule5 league ou_total handicap s).away_score := by
  obtain ⟨h1, h2, h3⟩ := h
  rcases ou_total with _ | t <;> rcases handicap with _ | hv <;>
    simp only [pbp_rule5] <;> (try split_ifs) <;> (try simp) <;> omega

/-- Every rule of the pattern scorer only adds points, so the three
outcome scores stay nonnegative. -/
theorem pbp_scores_nonneg (m : PbpMatch) :
    0 ≤ (pbp_run_rules m).home_score ∧ 0 ≤ (pbp_run_rules m).draw_score ∧
    0 ≤ (pbp_run_rules m).away_score :=
  pbp_rule5_nonneg _ _ _ _
    (pbp_rule4_nonneg _ _
      (pbp_rule3_nonneg _ _ _ _
        (pbp_rule2_nonneg _ _ _ _
          (pbp_rule1_nonneg _ _ _ _ _
            ⟨le_refl 0, le_refl 0, le_refl 0⟩))))

/-- C9: when no scoring rule has awarded points to any of the three
candidate outcomes (all three scores are 0), the pattern scorer marks
the match-outcome verdict 难以判断 (undetermined) with confidence 40,
which is strictly below the low-confidence threshold 50. -/
theorem pbp_no_rule_undetermined (m : PbpMatch)
    (h0 : (pbp_run_rules m).home_score = 0)
    (h1 : (pbp_run_rules m).draw_score = 0)
    (h2 : (pbp_run_rules m).away_score = 0) :
    predict_single_match m = ("难以判断", 40) ∧ ((40 : ℤ) < 50) := by
  refine ⟨?_, by norm_num⟩
  simp only [predict_single_match, pbp_verdict, h0, h1, h2]
  norm_num

/-- Witness for C9: a match record with no odds at all fires no rule
and is marked undetermined with confidence 40. -/
theorem pbp_no_rule_undetermined_witness :
    predict_single_match
      ⟨"", none, none, none, none, none, none, none, none, none, none, none⟩ =
      ("难以判断", 40) :=
  (pbp_no_rule_undetermined
    ⟨"", none, none, none, none, none, none, none, none, none, none, none⟩
    rfl rfl rfl).1

/-- The verdict step keeps the confidence in [0, 90] whenever the three
scores are nonnegative. -/
theorem pbp_verdict_bounds (st : PbpState) (hh : 0 ≤ st.home_score)
    (hd : 0 ≤ st.draw_score) (ha : 0 ≤ st.away_score) :
    0 ≤ (pbp_verdict st).2 ∧ (pbp_verdict st).2 ≤ 90 := by
  simp only [pbp_verdict]
  split_ifs <;> dsimp only <;> omega

/-- C10: the confidence of the pattern scorer always lies in [0, 90]
(in fact in [40, 90]), and so does the confidence of
`_predict_winner` in the prediction engine, for every input. -/
theorem confidence_bounds (m : PbpMatch) (hf af w d l : Option ℚ) :
    (0 ≤ (predict_single_match m).2 ∧ (predict_single_match m).2 ≤ 90) ∧
    (0 ≤ (pe_predict_winner hf af w d l).2 ∧
      (pe_predict_winner hf af w d l).2 ≤ 90) := by
  constructor
  · obtain ⟨hh, hd, ha⟩ := pbp_scores_nonneg m
    exact pbp_verdict_bounds (pbp_run_rules m) hh hd ha
  · have hbase : 50 ≤ (pe_winner_base w d l).2 ∧ (pe_winner_base w d l).2 ≤ 85 := by
      rcases w with _ | w <;> rcases d with _ | d <;> rcases l with _ | l <;>
        simp only [pe_winner_base] <;> (try split_ifs) <;> norm_num
    obtain ⟨hb1, hb2⟩ := hbase
    simp only [pe_predict_winner]
    rcases hf with _ | hr <;> rcases af with _ | ar <;>
      simp only [min_def, max_def] <;> (try split_ifs) <;>
      (try dsimp only) <;> constructor <;> linarith

end MyGoal
